import Mathlib

/-!
Shallow embedding of the RAG query core of `src/app.py`:

* `crear_embedding` (lines 28-32) — the Embedder,
* `buscar_similares` (lines 34-58) — the Retriever,
* `generar_respuesta` (lines 60-75) — the Synthesizer,
* the module-level query handler (lines 190-201) — the Orchestrator.

The three external collaborators (the Gemini embedding model, the MongoDB
Atlas vector store, the Gemini generative model) are modelled as oracles
returning either a response or an error of the spec's taxonomy.  The
Orchestrator is instrumented with an explicit trace of provider
invocations so that claims of the form "component X is never invoked"
can be stated.
-/

/-- Error taxonomy of spec section 7: `UpstreamUnavailable` (network or
service failure from a provider), `InvalidResponse` (provider response
missing an expected field; the `KeyError` of `resp["embedding"]`),
`EmptyGeneration` (generative model produced no text; the `ValueError`
of the `respuesta.text` accessor).  `other` covers any further exception
a provider may raise, so propagation theorems quantify over all kinds. -/
inductive Err where
  | upstreamUnavailable
  | invalidResponse
  | emptyGeneration
  | other (msg : String)
deriving DecidableEq, Repr

/-- Scalar type standing for the floating-point numbers of the source;
the core never computes with them, so exact rationals are a faithful
carrier. -/
abbrev Scalar := ℚ

/-- Response of the embedding provider (spec section 6): a record that
carries the `embedding` field, or lacks it (`none`), in which case the
subscript access `resp["embedding"]` in the source fails. -/
structure EmbedResp where
  embedding : Option (List Scalar)
deriving DecidableEq, Repr

/-- The external embedding provider: `genai.embed_content`, taking the
model identifier and the input text. -/
structure EmbedProvider where
  embed_content : String → String → Except Err EmbedResp

/-- A document produced by the `$project` stage of `buscar_similares`:
exactly the field `texto` plus the similarity `score` taken from the
`vectorSearchScore` metadata; `_id` is projected away. -/
structure PassageRecord where
  texto : String
  score : Scalar
deriving DecidableEq, Repr

/-- The `$vectorSearch` stage of the aggregation pipeline built in
`buscar_similares` (lines 40-48). -/
structure VectorSearchStage where
  index : String
  path : String
  queryVector : List Scalar
  numCandidates : Nat
  limit : Nat
deriving DecidableEq, Repr

/-- The `$project` stage (lines 49-55): `_id` is 0 (excluded), `texto`
is 1 (kept), and `score` is bound to the `vectorSearchScore` metadata. -/
structure ProjectStage where
  keepId : Bool
  keepTexto : Bool
  scoreMeta : String
deriving DecidableEq, Repr

/-- The two-stage aggregation pipeline sent to the collection. -/
structure Pipeline where
  search : VectorSearchStage
  projectStage : ProjectStage
deriving DecidableEq, Repr

/-- The external MongoDB collection: `collection.aggregate`. -/
structure VectorStore where
  aggregate : Pipeline → Except Err (List PassageRecord)

/-- Response of the generative model: its list of content parts.  The
`.text` quick accessor joins the parts and fails when there is none. -/
structure GenResponse where
  parts : List String
deriving DecidableEq, Repr

/-- The external generative model: `modelo.generate_content`. -/
structure GenerativeModel where
  generate_content : String → Except Err GenResponse

/-- The three module-level provider clients the core talks to. -/
structure World where
  genai : EmbedProvider
  collection : VectorStore
  modelo : GenerativeModel

/-- `crear_embedding` (src/app.py lines 28-32): calls the embedding
provider with the static model identifier `text-embedding-004` and the
question text, and returns the response's `embedding` field.  A provider
failure propagates unchanged; a response lacking the `embedding` field
fails with `InvalidResponse` (the `KeyError` of `resp["embedding"]`). -/
def crear_embedding (genai : EmbedProvider) (texto : String) :
    Except Err (List Scalar) :=
  match genai.embed_content "text-embedding-004" texto with
  | .error e => .error e
  | .ok resp =>
    match resp.embedding with
    | some v => .ok v
    | none => .error .invalidResponse

/-- The aggregation pipeline literal of `buscar_similares` (lines 39-56):
index `vector_index`, vector path `embedding`, the query vector, a fixed
candidate pool of 100, result limit `k`; then a projection keeping only
`texto` and the `vectorSearchScore` metadata as `score`. -/
def pipelineOf (embedding : List Scalar) (k : Nat) : Pipeline :=
  { search :=
      { index := "vector_index"
        path := "embedding"
        queryVector := embedding
        numCandidates := 100
        limit := k }
    projectStage :=
      { keepId := false
        keepTexto := true
        scoreMeta := "vectorSearchScore" } }

/-- `buscar_similares` (src/app.py lines 34-58): sends the pipeline to
the collection and returns the resulting record list.  In the source `k`
defaults to 5; the only call site passes `k=5` explicitly. -/
def buscar_similares (collection : VectorStore) (embedding : List Scalar)
    (k : Nat) : Except Err (List PassageRecord) :=
  collection.aggregate (pipelineOf embedding k)

/-- Semantics of Python's `sep.join(strs)`: the elements interleaved
with the separator. -/
def joinSep (sep : String) : List String → String
  | [] => ""
  | [a] => a
  | a :: b :: rest => a ++ sep ++ joinSep sep (b :: rest)

/-- The context block of `generar_respuesta` (line 63): the `texto`
field of each passage, in input order, joined by a blank line. -/
def contextBlock (contextos : List PassageRecord) : String :=
  joinSep "\n\n" (contextos.map (fun c => c.texto))

/-- The instruction prompt of `generar_respuesta` (lines 64-73): the
f-string template with the context block and the verbatim question
substituted in. -/
def promptOf (pregunta : String) (contextos : List PassageRecord) : String :=
  "\nEres un asistente experto en derecho constitucional peruano. Usa el siguiente contexto (extraído de la Constitución Política del Perú) para responder la pregunta del usuario.\n\nContexto:\n"
    ++ contextBlock contextos
    ++ "\n\nPregunta: " ++ pregunta
    ++ "\n\nResponde de forma clara, objetiva y en español, citando los artículos relevantes cuando corresponda.\n"

/-- The `.text` quick accessor of a generative response: fails (the
library's `ValueError`, `EmptyGeneration` in the spec taxonomy) when the
response holds no part at all, and otherwise returns the concatenation
of the parts. -/
def GenResponse.text (r : GenResponse) : Except Err String :=
  match r.parts with
  | [] => .error .emptyGeneration
  | _ => .ok (String.join r.parts)

/-- `generar_respuesta` (src/app.py lines 60-75): builds the prompt from
the question and the passages as received, invokes the generative model
once, and returns `respuesta.text` with no further processing. -/
def generar_respuesta (modelo : GenerativeModel) (pregunta : String)
    (contextos : List PassageRecord) : Except Err String :=
  match modelo.generate_content (promptOf pregunta contextos) with
  | .error e => .error e
  | .ok respuesta => respuesta.text

/-- The fixed fallback literal of line 196. -/
def FALLBACK : String := "No encontré información relevante en la Constitución."

/-- One provider invocation, recorded with its distinguishing argument. -/
inductive CallEvent where
  | embed (texto : String)
  | retrieve (k : Nat)
  | generate (prompt : String)
deriving DecidableEq, Repr

/-- The query pipeline of the module-level handler (src/app.py lines
192-198): embed the question, retrieve with `k=5`, then either the
fallback literal (empty retrieval) or synthesis.  The second component
records, in order, the component invocations that actually happened;
each invocation in the source is paired with exactly one event here. -/
def answer_question (w : World) (pregunta : String) :
    Except Err String × List CallEvent :=
  match crear_embedding w.genai pregunta with
  | .error e => (.error e, [.embed pregunta])
  | .ok emb =>
    match buscar_similares w.collection emb 5 with
    | .error e => (.error e, [.embed pregunta, .retrieve 5])
    | .ok similares =>
      if similares.isEmpty then
        (.ok FALLBACK, [.embed pregunta, .retrieve 5])
      else
        match generar_respuesta w.modelo pregunta similares with
        | .error e =>
          (.error e,
           [.embed pregunta, .retrieve 5, .generate (promptOf pregunta similares)])
        | .ok r =>
          (.ok r,
           [.embed pregunta, .retrieve 5, .generate (promptOf pregunta similares)])

/-- A transcript entry of `st.session_state.historial` (lines 200-201). -/
structure Entry where
  rol : String
  texto : String
deriving DecidableEq, Repr

/-- The full `if pregunta` block (lines 190-201): compute the answer and
append the user/bot pair to the session transcript; on a propagated
failure nothing is appended. -/
def handle (w : World) (historial : List Entry) (pregunta : String) :
    Except Err (List Entry) × List CallEvent :=
  match answer_question w pregunta with
  | (.error e, tr) => (.error e, tr)
  | (.ok respuesta, tr) =>
    (.ok (historial ++ [⟨"usuario", pregunta⟩, ⟨"bot", respuesta⟩]), tr)

/-- The answer a caller reads off one `handle` invocation: the `texto`
of the last (bot) transcript entry, or the propagated failure. -/
def answerOf (w : World) (historial : List Entry) (pregunta : String) :
    Except Err String :=
  match handle w historial pregunta with
  | (.error e, _) => .error e
  | (.ok hist, _) =>
    .ok (match hist.getLast? with
         | some en => en.texto
         | none => "")

/-- A stored document of the pre-indexed corpus: text plus its
pre-computed embedding. -/
structure StoredDoc where
  texto : String
  embedding : List Scalar
deriving DecidableEq, Repr

/-- Dot-product similarity between a query vector and a stored one. -/
def dotProduct (u v : List Scalar) : Scalar :=
  (List.zipWith (fun a b => a * b) u v).sum

/-- Insertion of a record into a list sorted by descending score. -/
def insertByScore (r : PassageRecord) :
    List PassageRecord → List PassageRecord
  | [] => [r]
  | x :: xs => if x.score < r.score then r :: x :: xs else x :: insertByScore r xs

/-- Sort records by descending similarity score. -/
def sortByScoreDesc : List PassageRecord → List PassageRecord
  | [] => []
  | x :: xs => insertByScore x (sortByScoreDesc xs)

/-- Modelled from the spec: the external MongoDB Atlas `$vectorSearch` +
`$project` execution (spec sections 4.2 and 6; the store itself is an
external collaborator, not code under src/).  Every stored document is
scored against the query vector, the candidates are ranked by descending
similarity, the approximate search considers `numCandidates` of them and
at most `limit` are returned, projected to `texto` and `score`. -/
def runPipeline (docs : List StoredDoc) (p : Pipeline) : List PassageRecord :=
  let scored := docs.map (fun d => ⟨d.texto, dotProduct p.search.queryVector d.embedding⟩)
  ((sortByScoreDesc scored).take p.search.numCandidates).take p.search.limit

/-- A healthy Atlas store over a concrete corpus. -/
def atlasStore (docs : List StoredDoc) : VectorStore :=
  ⟨fun p => .ok (runPipeline docs p)⟩

/-! Helper lemmas: the four possible outcomes of one orchestrator run. -/

/-- If the Embedder fails, the run stops with that very error after a
single embed invocation. -/
theorem answer_question_embed_error (w : World) (q : String) (e : Err)
    (h : crear_embedding w.genai q = .error e) :
    answer_question w q = (.error e, [.embed q]) := by
  simp [answer_question, h]

/-- If the Retriever fails, the run stops with that very error after one
embed and one retrieve invocation. -/
theorem answer_question_retrieve_error (w : World) (q : String)
    (emb : List Scalar) (e : Err)
    (h1 : crear_embedding w.genai q = .ok emb)
    (h2 : buscar_similares w.collection emb 5 = .error e) :
    answer_question w q = (.error e, [.embed q, .retrieve 5]) := by
  simp [answer_question, h1, h2]

/-- If the Retriever returns no passage, the run answers the fallback
literal without invoking the Synthesizer. -/
theorem answer_question_empty_retrieval (w : World) (q : String)
    (emb : List Scalar)
    (h1 : crear_embedding w.genai q = .ok emb)
    (h2 : buscar_similares w.collection emb 5 = .ok []) :
    answer_question w q = (.ok FALLBACK, [.embed q, .retrieve 5]) := by
  simp [answer_question, h1, h2]

/-- If the Retriever returns at least one passage, the run forwards the
Synthesizer outcome after one embed, one retrieve and one generate
invocation. -/
theorem answer_question_synthesis (w : World) (q : String)
    (emb : List Scalar) (similares : List PassageRecord)
    (h1 : crear_embedding w.genai q = .ok emb)
    (h2 : buscar_similares w.collection emb 5 = .ok similares)
    (hne : similares ≠ []) :
    answer_question w q = (generar_respuesta w.modelo q similares,
      [.embed q, .retrieve 5, .generate (promptOf q similares)]) := by
  have hne' : similares.isEmpty = false := by
    cases similares with
    | nil => exact absurd rfl hne
    | cons a l => rfl
  simp only [answer_question, h1, h2, hne', Bool.false_eq_true, if_false]
  cases generar_respuesta w.modelo q similares <;> rfl

/-- Exhaustive case split over one orchestrator run. -/
theorem answer_question_cases (w : World) (q : String) :
    (∃ e, crear_embedding w.genai q = .error e ∧
        answer_question w q = (.error e, [.embed q])) ∨
    (∃ emb e, crear_embedding w.genai q = .ok emb ∧
        buscar_similares w.collection emb 5 = .error e ∧
        answer_question w q = (.error e, [.embed q, .retrieve 5])) ∨
    (∃ emb, crear_embedding w.genai q = .ok emb ∧
        buscar_similares w.collection emb 5 = .ok [] ∧
        answer_question w q = (.ok FALLBACK, [.embed q, .retrieve 5])) ∨
    (∃ emb similares, crear_embedding w.genai q = .ok emb ∧
        buscar_similares w.collection emb 5 = .ok similares ∧ similares ≠ [] ∧
        answer_question w q = (generar_respuesta w.modelo q similares,
          [.embed q, .retrieve 5, .generate (promptOf q similares)])) := by
  cases h1 : crear_embedding w.genai q with
  | error e => exact Or.inl ⟨e, rfl, answer_question_embed_error w q e h1⟩
  | ok emb =>
    cases h2 : buscar_similares w.collection emb 5 with
    | error e =>
      exact Or.inr (Or.inl ⟨emb, e, rfl, h2,
        answer_question_retrieve_error w q emb e h1 h2⟩)
    | ok similares =>
      cases similares with
      | nil =>
        exact Or.inr (Or.inr (Or.inl ⟨emb, rfl, h2,
          answer_question_empty_retrieval w q emb h1 h2⟩))
      | cons a l =>
        exact Or.inr (Or.inr (Or.inr ⟨emb, a :: l, rfl, h2, by simp,
          answer_question_synthesis w q emb (a :: l) h1 h2 (by simp)⟩))

/-! Concrete stub providers for witnesses and counterexamples. -/

/-- An embedding provider that always answers with a one-dimensional
vector. -/
def epOk : EmbedProvider := ⟨fun _ _ => .ok ⟨some [1]⟩⟩

/-- An unreachable embedding provider. -/
def epDown : EmbedProvider := ⟨fun _ _ => .error .upstreamUnavailable⟩

/-- A store that matches nothing. -/
def storeEmpty : VectorStore := ⟨fun _ => .ok []⟩

/-- A store that always returns one passage. -/
def storeOne : VectorStore := ⟨fun _ => .ok [⟨"Artículo 1.", 1⟩]⟩

/-- A generative model that always produces the same answer text. -/
def gmOk : GenerativeModel := ⟨fun _ => .ok ⟨["Respuesta."]⟩⟩

/-- A generative model whose response carries a single empty part. -/
def gmEmptyText : GenerativeModel := ⟨fun _ => .ok ⟨[""]⟩⟩

/-- A generative model whose response carries no part at all. -/
def gmNoParts : GenerativeModel := ⟨fun _ => .ok ⟨[]⟩⟩

/-- A world whose retrieval finds no match. -/
def wNoMatch : World := ⟨epOk, storeEmpty, gmOk⟩

/-- A world whose embedding provider is down. -/
def wEmbedDown : World := ⟨epDown, storeOne, gmOk⟩

/-- A world whose generative model produces an empty text. -/
def wEmptyAnswer : World := ⟨epOk, storeOne, gmEmptyText⟩

/-- A two-document corpus for the modelled Atlas store. -/
def docsTwo : List StoredDoc := [⟨"A", [1]⟩, ⟨"B", [2]⟩]

/-- C1: when retrieval succeeds with zero passages the answer is exactly
the fallback literal and no generate invocation is ever recorded; and
conversely a generate invocation happens only after retrieval succeeded
with a non-empty passage list. -/
theorem C1_empty_retrieval_fallback_no_synthesis (w : World) (pregunta : String) :
    (∀ emb, crear_embedding w.genai pregunta = .ok emb →
        buscar_similares w.collection emb 5 = .ok [] →
        (answer_question w pregunta).1 = .ok FALLBACK ∧
        ∀ p, CallEvent.generate p ∉ (answer_question w pregunta).2) ∧
    ∀ p, CallEvent.generate p ∈ (answer_question w pregunta).2 →
      ∃ emb similares, crear_embedding w.genai pregunta = .ok emb ∧
        buscar_similares w.collection emb 5 = .ok similares ∧ similares ≠ [] := by
  constructor
  · intro emb h1 h2
    rw [answer_question_empty_retrieval w pregunta emb h1 h2]
    constructor
    · rfl
    · intro p hp
      simp at hp
  · intro p hp
    rcases answer_question_cases w pregunta with
      ⟨e, _, haq⟩ | ⟨emb, e, _, _, haq⟩ | ⟨emb, _, _, haq⟩ |
      ⟨emb, similares, h1, h2, hne, haq⟩
    · rw [haq] at hp; simp at hp
    · rw [haq] at hp; simp at hp
    · rw [haq] at hp; simp at hp
    · exact ⟨emb, similares, h1, h2, hne⟩

/-- C1 witness: in a world where the store matches nothing, the answer
is the fallback literal. -/
theorem C1_empty_retrieval_fallback_no_synthesis_witness :
    (answer_question wNoMatch "q").1 = .ok FALLBACK :=
  ((C1_empty_retrieval_fallback_no_synthesis wNoMatch "q").1 [1] rfl rfl).1

/-- C2: the context block lists the passage texts in exactly the order
received, separated by a blank line; for a two-passage retrieval the
full prompt therefore places the first passage's text strictly before
the second passage's text. -/
theorem C2_context_preserves_rank_order (p1 p2 : PassageRecord)
    (pregunta : String) :
    (∀ (p : PassageRecord) (ps : List PassageRecord), ps ≠ [] →
        contextBlock (p :: ps) = p.texto ++ "\n\n" ++ contextBlock ps) ∧
    promptOf pregunta [p1, p2] =
      "\nEres un asistente experto en derecho constitucional peruano. Usa el siguiente contexto (extraído de la Constitución Política del Perú) para responder la pregunta del usuario.\n\nContexto:\n"
        ++ p1.texto ++ "\n\n" ++ p2.texto
        ++ "\n\nPregunta: " ++ pregunta
        ++ "\n\nResponde de forma clara, objetiva y en español, citando los artículos relevantes cuando corresponda.\n" := by
  constructor
  · intro p ps hps
    cases ps with
    | nil => exact absurd rfl hps
    | cons b bs => rfl
  · rfl

/-- C2 witness: on the passages P1 (score 0.9) and P2 (score 0.7) the
context block starts with P1's text. -/
theorem C2_context_preserves_rank_order_witness :
    contextBlock [⟨"P1", 9/10⟩, ⟨"P2", 7/10⟩] =
      "P1" ++ "\n\n" ++ contextBlock [⟨"P2", 7/10⟩] :=
  (C2_context_preserves_rank_order ⟨"P1", 9/10⟩ ⟨"P2", 7/10⟩ "q").1
    ⟨"P1", 9/10⟩ [⟨"P2", 7/10⟩] (by simp)

/-- C3: every provider failure aborts the query and is propagated to the
caller with its kind unchanged; an Embedder failure in particular ends
the run with a trace holding the single embed invocation, so neither the
Retriever nor the Synthesizer is invoked and nothing is retried. -/
theorem C3_failures_propagate_unchanged (w : World) (pregunta : String)
    (e : Err) :
    (w.genai.embed_content "text-embedding-004" pregunta = .error e →
        answer_question w pregunta = (.error e, [.embed pregunta])) ∧
    (∀ emb, crear_embedding w.genai pregunta = .ok emb →
        buscar_similares w.collection emb 5 = .error e →
        answer_question w pregunta = (.error e, [.embed pregunta, .retrieve 5])) ∧
    ∀ emb similares, crear_embedding w.genai pregunta = .ok emb →
      buscar_similares w.collection emb 5 = .ok similares →
      similares ≠ [] →
      generar_respuesta w.modelo pregunta similares = .error e →
      (answer_question w pregunta).1 = .error e := by
  refine ⟨fun h => ?_, fun emb h1 h2 => ?_, fun emb similares h1 h2 hne h3 => ?_⟩
  · have hc : crear_embedding w.genai pregunta = .error e := by
      simp [crear_embedding, h]
    exact answer_question_embed_error w pregunta e hc
  · exact answer_question_retrieve_error w pregunta emb e h1 h2
  · rw [answer_question_synthesis w pregunta emb similares h1 h2 hne, h3]

/-- C3 witness: with the embedding provider down, the query aborts with
`UpstreamUnavailable` and only the embed invocation is recorded. -/
theorem C3_failures_propagate_unchanged_witness :
    answer_question wEmbedDown "q" =
      (.error .upstreamUnavailable, [.embed "q"]) :=
  (C3_failures_propagate_unchanged wEmbedDown "q" .upstreamUnavailable).1 rfl

/-- C4: over the modelled Atlas store the Retriever returns at most `k`
records for every requested limit `k ≥ 1`, and every retrieve invocation
the Orchestrator ever records carries `k = 5`. -/
theorem C4_retriever_bounded_and_called_with_five (docs : List StoredDoc)
    (emb : List Scalar) (k : Nat) (_hk : 1 ≤ k) :
    (∀ l, buscar_similares (atlasStore docs) emb k = .ok l → l.length ≤ k) ∧
    ∀ (w : World) (pregunta : String) (j : Nat),
      CallEvent.retrieve j ∈ (answer_question w pregunta).2 → j = 5 := by
  constructor
  · intro l hl
    have hl' : ((sortByScoreDesc
        (docs.map (fun d =>
          ⟨d.texto, dotProduct (pipelineOf emb k).search.queryVector d.embedding⟩))).take
            (pipelineOf emb k).search.numCandidates).take
              (pipelineOf emb k).search.limit = l := by
      have := hl
      simp only [buscar_similares, atlasStore, runPipeline] at this
      exact Except.ok.inj this
    rw [← hl']
    calc (((sortByScoreDesc _).take _).take (pipelineOf emb k).search.limit).length
        ≤ (pipelineOf emb k).search.limit := List.length_take_le _ _
      _ = k := rfl
  · intro w pregunta j hj
    rcases answer_question_cases w pregunta with
      ⟨e, _, haq⟩ | ⟨emb2, e, _, _, haq⟩ | ⟨emb2, _, _, haq⟩ |
      ⟨emb2, similares, _, _, _, haq⟩ <;> rw [haq] at hj <;> simp at hj
    · exact hj
    · exact hj
    · exact hj

/-- C4 witness: the result for `k = 1` over a two-document corpus has at
most one element. -/
theorem C4_retriever_bounded_and_called_with_five_witness :
    (runPipeline docsTwo (pipelineOf [1] 1)).length ≤ 1 :=
  (C4_retriever_bounded_and_called_with_five docsTwo [1] 1 (by decide)).1
    (runPipeline docsTwo (pipelineOf [1] 1)) rfl

/-- Decidable equality on `Except`, so concrete runs can be checked by
`decide`. -/
def exceptDecEq {ε α : Type} [DecidableEq ε] [DecidableEq α] :
    DecidableEq (Except ε α)
  | .error a, .error b =>
    if h : a = b then .isTrue (by rw [h]) else .isFalse (by simp [h])
  | .error _, .ok _ => .isFalse (by simp)
  | .ok _, .error _ => .isFalse (by simp)
  | .ok a, .ok b =>
    if h : a = b then .isTrue (by rw [h]) else .isFalse (by simp [h])

instance {ε α : Type} [DecidableEq ε] [DecidableEq α] :
    DecidableEq (Except ε α) := exceptDecEq

/-- C5 counterexample: with a generative model whose response parts join
to the empty string, `answer_question` returns the empty string as a
successful answer, so the claim that it never returns an empty string
fails. -/
theorem C5_counterexample_empty_string_answer :
    (answer_question wEmptyAnswer "q").1 = .ok "" := by decide

/-- C5 amended: `answer_question` returns either the Synthesizer's
string (which is empty exactly when the generative model produced an
empty text), the fallback literal (itself never empty), or the failing
component's error propagated as-is; no error is swallowed. -/
theorem C5_amended_answer_shape (w : World) (pregunta : String) :
    ((∃ e, (answer_question w pregunta).1 = .error e) ∨
      (answer_question w pregunta).1 = .ok FALLBACK ∨
      ∃ similares t, similares ≠ [] ∧
        generar_respuesta w.modelo pregunta similares = .ok t ∧
        (answer_question w pregunta).1 = .ok t) ∧
    FALLBACK ≠ "" := by
  constructor
  · rcases answer_question_cases w pregunta with
      ⟨e, _, haq⟩ | ⟨emb, e, _, _, haq⟩ | ⟨emb, _, _, haq⟩ |
      ⟨emb, similares, _, _, hne, haq⟩
    · exact Or.inl ⟨e, by rw [haq]⟩
    · exact Or.inl ⟨e, by rw [haq]⟩
    · exact Or.inr (Or.inl (by rw [haq]))
    · cases h3 : generar_respuesta w.modelo pregunta similares with
      | error e => exact Or.inl ⟨e, by rw [haq, h3]⟩
      | ok t => exact Or.inr (Or.inr ⟨similares, t, hne, h3, by rw [haq, h3]⟩)
  · decide

/-- C6 counterexample: a provider response holding one empty part makes
`generar_respuesta` return the empty string as a successful answer, so
the claim that an empty answer is never returned as a success fails. -/
theorem C6_counterexample_empty_generation_success :
    generar_respuesta gmEmptyText "q" [⟨"Artículo 1.", 1⟩] = .ok "" := by
  decide

/-- C6 amended: `generar_respuesta` propagates a provider error as-is,
fails with `EmptyGeneration` exactly when the response holds no part at
all, and otherwise returns the joined parts verbatim with no
post-processing — including the empty string when the parts join to it. -/
theorem C6_amended_verbatim_or_empty_generation (gm : GenerativeModel)
    (pregunta : String) (contextos : List PassageRecord) :
    (∀ e, gm.generate_content (promptOf pregunta contextos) = .error e →
        generar_respuesta gm pregunta contextos = .error e) ∧
    ∀ r, gm.generate_content (promptOf pregunta contextos) = .ok r →
      (r.parts = [] →
          generar_respuesta gm pregunta contextos = .error .emptyGeneration) ∧
      ∀ a l, r.parts = a :: l →
          generar_respuesta gm pregunta contextos = .ok (String.join r.parts) := by
  constructor
  · intro e he
    simp [generar_respuesta, he]
  · intro r hr
    constructor
    · intro hp
      simp [generar_respuesta, hr, GenResponse.text, hp]
    · intro a l hp
      simp [generar_respuesta, hr, GenResponse.text, hp]

/-- C6 amended witness: a response with no part fails with
`EmptyGeneration`. -/
theorem C6_amended_verbatim_or_empty_generation_witness :
    generar_respuesta gmNoParts "q" [] = .error .emptyGeneration :=
  ((C6_amended_verbatim_or_empty_generation gmNoParts "q" []).2 ⟨[]⟩ rfl).1 rfl

/-- C7: the Embedder propagates any provider error unchanged, fails with
`InvalidResponse` exactly when the provider response lacks the
`embedding` field, and on success returns exactly that field. -/
theorem C7_embedder_error_contract (ep : EmbedProvider) (texto : String) :
    (∀ e, ep.embed_content "text-embedding-004" texto = .error e →
        crear_embedding ep texto = .error e) ∧
    ∀ resp, ep.embed_content "text-embedding-004" texto = .ok resp →
      (resp.embedding = none →
          crear_embedding ep texto = .error .invalidResponse) ∧
      ∀ v, resp.embedding = some v → crear_embedding ep texto = .ok v := by
  constructor
  · intro e he
    simp [crear_embedding, he]
  · intro resp hr
    constructor
    · intro hn
      simp [crear_embedding, hr, hn]
    · intro v hv
      simp [crear_embedding, hr, hv]

/-- C7 witness: an unreachable provider makes the Embedder fail with
`UpstreamUnavailable`. -/
theorem C7_embedder_error_contract_witness :
    crear_embedding epDown "q" = .error .upstreamUnavailable :=
  (C7_embedder_error_contract epDown "q").1 .upstreamUnavailable rfl

/-- The last entry of a transcript extended by a user/bot pair is the
bot entry. -/
theorem getLast?_append_pair (h : List Entry) (a b : Entry) :
    (h ++ [a, b]).getLast? = some b := by
  rw [show h ++ [a, b] = (h ++ [a]) ++ [b] by simp]
  exact List.getLast?_concat _

/-- C8: the answer read off a `handle` invocation is independent of the
session transcript accumulated before it and equals the pure pipeline
result of the question against the given providers — the core keeps no
mutable state across queries, so identical questions against identical
provider behaviour give identical answers. -/
theorem C8_answer_independent_of_transcript (w : World) (pregunta : String)
    (h1 h2 : List Entry) :
    answerOf w h1 pregunta = answerOf w h2 pregunta ∧
    answerOf w h1 pregunta = (answer_question w pregunta).1 := by
  have key : ∀ h : List Entry,
      answerOf w h pregunta = (answer_question w pregunta).1 := by
    intro h
    unfold answerOf handle
    cases haq : answer_question w pregunta with
    | mk res tr =>
      cases res with
      | error e => rfl
      | ok r => simp [getLast?_append_pair]
  exact ⟨(key h1).trans (key h2).symm, key h1⟩

/-- C9: the prompt depends only on the question and the passages' texts;
two passage lists with identical texts but different scores give the
identical prompt, and hence the identical Synthesizer outcome for any
fixed generative model. -/
theorem C9_scores_never_influence_prompt (pregunta : String)
    (ps1 ps2 : List PassageRecord)
    (h : ps1.map (fun c => c.texto) = ps2.map (fun c => c.texto)) :
    promptOf pregunta ps1 = promptOf pregunta ps2 ∧
    ∀ gm : GenerativeModel,
      generar_respuesta gm pregunta ps1 = generar_respuesta gm pregunta ps2 := by
  have hp : promptOf pregunta ps1 = promptOf pregunta ps2 := by
    unfold promptOf contextBlock
    rw [h]
  refine ⟨hp, fun gm => ?_⟩
  unfold generar_respuesta
  rw [hp]

/-- C9 witness: the same passage text under scores 0.9 and 0.7 gives the
same prompt. -/
theorem C9_scores_never_influence_prompt_witness :
    promptOf "q" [⟨"Artículo 1.", 9/10⟩] = promptOf "q" [⟨"Artículo 1.", 7/10⟩] ∧
    (9 : Scalar)/10 ≠ 7/10 :=
  ⟨(C9_scores_never_influence_prompt "q"
      [⟨"Artículo 1.", 9/10⟩] [⟨"Artículo 1.", 7/10⟩] rfl).1,
    by norm_num⟩

/-- C10: the aggregation pipeline sent by `buscar_similares` always
fixes the candidate pool at 100 whatever the requested limit `k`, limits
the result to `k`, excludes the document identifier and keeps exactly
`texto` plus the `vectorSearchScore` metadata as `score`; and
`buscar_similares` sends exactly this pipeline to the store. -/
theorem C10_pipeline_pool_and_projection (embedding : List Scalar) (k : Nat) :
    (pipelineOf embedding k).search.numCandidates = 100 ∧
    (pipelineOf embedding k).search.limit = k ∧
    (pipelineOf embedding k).projectStage.keepId = false ∧
    (pipelineOf embedding k).projectStage.keepTexto = true ∧
    (pipelineOf embedding k).projectStage.scoreMeta = "vectorSearchScore" ∧
    ∀ store : VectorStore,
      buscar_similares store embedding k = store.aggregate (pipelineOf embedding k) :=
  ⟨rfl, rfl, rfl, rfl, rfl, fun _ => rfl⟩
